import Mathlib

/-!
Verification of the natural-language specification of
`svdoever/cloudflare-tunnelmanager` (`src/cloudflare_tunnelmanager/main.py`)
against a shallow embedding of the program in Lean 4.

The program is a thin orchestration layer: it shells out to the `cloudflared`
binary, reads and writes a few files under a fixed directory, performs two
HTTP requests, and supervises child processes.  The embedding models:

  * the local filesystem as a partial map from path strings to file contents;
  * external effects (subprocess exit codes and output, regex extraction,
    JSON parsing, HTTP responses) through an explicit environment record,
    since those are opaque collaborators from the point of view of the code;
  * the observable actions of a run (which provider commands were invoked,
    which files were read, renamed or written, which HTTP requests were
    issued, which sleeps happened) as an explicit event trace.

Every definition mirrors the control flow of the corresponding Python
function; the doc comment of each definition names the source function.
-/

set_option autoImplicit false
set_option maxRecDepth 8192

/-- The local filesystem: a partial map from path to file content. -/
def FS : Type := String → Option String

/-- The empty filesystem. -/
def FS.empty : FS := fun _ => none

/-- Write (create or overwrite) a file. -/
def FS.write (fs : FS) (p c : String) : FS :=
  fun q => if q = p then some c else fs q

/-- Delete a file. -/
def FS.remove (fs : FS) (p : String) : FS :=
  fun q => if q = p then none else fs q

/-- POSIX rename: the target is overwritten with the content of the source
and the source disappears; a missing source leaves the filesystem unchanged
(in the program this case is guarded by an existence check). -/
def FS.rename (fs : FS) (old new : String) : FS :=
  match fs old with
  | some c => (fs.remove old).write new c
  | none => fs

/-- Outcome of one `unlink` attempt, modelling the Python exceptions that
`_remove_tunnel_files` distinguishes: success, `PermissionError`, or any
other `Exception`. -/
inductive UnlinkOut where
  | ok
  | permError
  | otherError
deriving DecidableEq

/-- Observable actions of a run. -/
inductive Ev where
  /-- `cloudflared tunnel delete -f <name>` was invoked. -/
  | runDelete : String → Ev
  /-- `cloudflared tunnel create <name>` was invoked. -/
  | runCreate : String → Ev
  /-- `cloudflared tunnel route dns --overwrite-dns <nameOrId> <hostname>`. -/
  | runRoute : String → String → Ev
  /-- The manual DNS configuration instructions were printed. -/
  | printManualDns : Ev
  /-- The existing credentials file at the given path was opened and read. -/
  | readCreds : String → Ev
  /-- The credentials file was renamed from the first to the second path. -/
  | renameCreds : String → String → Ev
  /-- The config file at the given path was written. -/
  | writeConfig : String → Ev
  /-- An HTTP GET of the given URL with the given request timeout. -/
  | httpGet : String → Nat → Ev
  /-- The diagnostic GET of `http://localhost:<port>` with the given request
  timeout; the flag records whether it answered with status 200. -/
  | localGet : Nat → Nat → Bool → Ev
  /-- `time.sleep` of the given number of seconds. -/
  | sleep : Nat → Ev
deriving DecidableEq

/-- The external world as seen by the tunnel-provisioning code: exit codes
and outputs of the `cloudflared` subprocesses, the effect of the provider
on the filesystem, and the library routines (regex search, JSON parsing)
the code calls, all supplied as oracle data. -/
structure Env where
  /-- Outcome of the n-th unlink attempt on a path (attempts are numbered
  0, 1, 2 matching the three tiers in `_remove_tunnel_files`). -/
  unlink : String → Nat → UnlinkOut
  /-- Exit code of `cloudflared tunnel delete -f <name>`. -/
  deleteExit : Nat
  /-- Exit code of `cloudflared tunnel create <name>`. -/
  createExit : Nat
  /-- Captured stdout of the create command. -/
  createStdout : String
  /-- Captured stderr of the create command. -/
  createStderr : String
  /-- Files the provider binary writes while the create command runs. -/
  createWrites : List (String × String)
  /-- Exit code of `cloudflared tunnel route dns --overwrite-dns <arg> ...`,
  as a function of the name-or-id argument. -/
  routeExit : String → Nat
  /-- Models json.load on a credentials file followed by reading the
  TunnelID key: none covers both a parse failure (an exception, which the
  program catches) and a missing key. -/
  parseTunnelID : String → Option String
  /-- Models the regex search for the message reporting where the tunnel
  credentials were written: the captured .json path, if the pattern
  matches the combined output. -/
  reCredsPath : String → Option String
  /-- Models the fallback regex search for the created-tunnel-with-id
  message: the captured 36-character tunnel id, if the pattern matches. -/
  reTunnelId : String → Option String
  /-- Whether `config_path.write_text(...)` succeeds (false models the
  exception branch of `create_cloudflared_config`). -/
  configWriteOk : Bool

/-- `self.cloudflared_dir / f"{tunnel_name}.json"` — the stable credentials
file path for a tunnel name. -/
def credsPathOf (dir name : String) : String := dir ++ "/" ++ name ++ ".json"

/-- `self.cloudflared_dir / f"config-tunnel-{tunnel_name}.yml"` — the config
file path for a tunnel name. -/
def ymlPathOf (dir name : String) : String := dir ++ "/config-tunnel-" ++ name ++ ".yml"

/-- `cloudflared_dir / "cert.pem"` — the authentication artifact path. -/
def certPathOf (dir : String) : String := dir ++ "/cert.pem"

/-- The f-string written by `create_cloudflared_config` (main.py:221-232). -/
def config_content (tunnel_name hostname : String) (local_port : Nat)
    (credentials_file : String) : String :=
  "tunnel: " ++ tunnel_name ++ "\n" ++
  "credentials-file: " ++ credentials_file ++ "\n" ++
  "\n" ++
  "ingress:\n" ++
  "  - hostname: " ++ hostname ++ "\n" ++
  "    service: http://localhost:" ++ toString local_port ++ "\n" ++
  "  - service: http_status:404\n" ++
  "\n" ++
  "# Security settings\n" ++
  "no-autoupdate: true\n" ++
  "protocol: quic\n"

/-- `find_tunnel_credentials_file` (main.py:243-258): return
`<dir>/<tunnel_name>.json` if that file exists, else nothing.  No other
location or naming convention is consulted. -/
def find_tunnel_credentials_file (dir : String) (fs : FS) (tunnel_name : String) :
    Option String :=
  if (fs (credsPathOf dir tunnel_name)).isSome then some (credsPathOf dir tunnel_name)
  else none

/-- Result of the embedded `create_cloudflared_config`. -/
structure CfgRes where
  ok : Bool
  fs : FS
  /-- The credentials file path the config references (the value of the
  `credentials_file` local variable), if one was found. -/
  creds : Option String
  trace : List Ev

/-- `create_cloudflared_config` (main.py:201-241): look up the credentials
file; fail if absent; otherwise unconditionally overwrite the config file
with the generated content (`write_text`), failing only if the write itself
raises (modelled by `env.configWriteOk`). -/
def create_cloudflared_config (env : Env) (dir : String) (fs : FS)
    (config_path tunnel_name hostname : String) (local_port : Nat) : CfgRes :=
  match find_tunnel_credentials_file dir fs tunnel_name with
  | none => ⟨false, fs, none, []⟩
  | some credentials_file =>
    if env.configWriteOk then
      ⟨true,
       fs.write config_path (config_content tunnel_name hostname local_port credentials_file),
       some credentials_file, [Ev.writeConfig config_path]⟩
    else ⟨false, fs, some credentials_file, [Ev.writeConfig config_path]⟩

/-- `_remove_tunnel_files` (main.py:316-353): best-effort deletion of the
credentials file (three-tier retry: plain unlink; on `PermissionError`
chmod then unlink; on a further exception sleep then unlink; any other
first-attempt exception is only reported) followed by a single best-effort
deletion of the config file.  Every exception is caught, so the function
always returns a filesystem.  This is the credentials-file block
(main.py:321-344). -/
def removeJsonFile (env : Env) (dir tunnel_name : String) (fs : FS) : FS :=
  if (fs (credsPathOf dir tunnel_name)).isSome then
    match env.unlink (credsPathOf dir tunnel_name) 0 with
    | .ok => fs.remove (credsPathOf dir tunnel_name)
    | .permError =>
      match env.unlink (credsPathOf dir tunnel_name) 1 with
      | .ok => fs.remove (credsPathOf dir tunnel_name)
      | _ =>
        match env.unlink (credsPathOf dir tunnel_name) 2 with
        | .ok => fs.remove (credsPathOf dir tunnel_name)
        | _ => fs
    | .otherError => fs
  else fs

/-- The config-file block of `_remove_tunnel_files` (main.py:346-353): a
single best-effort unlink guarded by an existence check. -/
def removeYmlFile (env : Env) (dir tunnel_name : String) (fs : FS) : FS :=
  if (fs (ymlPathOf dir tunnel_name)).isSome then
    match env.unlink (ymlPathOf dir tunnel_name) 0 with
    | .ok => fs.remove (ymlPathOf dir tunnel_name)
    | _ => fs
  else fs

/-- `_remove_tunnel_files` (main.py:316-353): the credentials-file block
followed by the config-file block. -/
def remove_tunnel_files (env : Env) (dir tunnel_name : String) (fs : FS) : FS :=
  removeYmlFile env dir tunnel_name (removeJsonFile env dir tunnel_name fs)

/-- `remove_cloudflare_tunnel` (main.py:288-314): invoke
`cloudflared tunnel delete -f <name>` (its exit code is only reported,
never acted on), then remove the two local files.  The whole body is inside
`try/except`, and every branch of the embedding returns normally. -/
def remove_cloudflare_tunnel (env : Env) (dir tunnel_name : String) (fs : FS) :
    FS × List Ev :=
  (remove_tunnel_files env dir tunnel_name fs, [Ev.runDelete tunnel_name])

/-- The DNS-routing step of `create_or_reuse_tunnel` (main.py:459-481):
route with the tunnel name; on a non-zero exit, retry with the tunnel id
only when one is known (the `elif tunnel_id:` guard), and print the manual
configuration instructions only when that retry also fails.  When no
tunnel id is known a first-attempt failure is silently ignored.  The step
has no filesystem effect; it only produces events. -/
def dns_route (env : Env) (tunnel_name full_domain : String)
    (tunnel_id : Option String) : List Ev :=
  if env.routeExit tunnel_name = 0 then [Ev.runRoute tunnel_name full_domain]
  else
    match tunnel_id with
    | some tid =>
      if env.routeExit tid = 0 then
        [Ev.runRoute tunnel_name full_domain, Ev.runRoute tid full_domain]
      else
        [Ev.runRoute tunnel_name full_domain, Ev.runRoute tid full_domain,
         Ev.printManualDns]
    | none => [Ev.runRoute tunnel_name full_domain]

/-- Failure kinds of `create_or_reuse_tunnel`, distinguished in the source
by the message printed at the corresponding `return False` site. -/
inductive PErr where
  /-- The create command exited non-zero (main.py:395-399). -/
  | createFailed
  /-- No credentials file could be located after the create (main.py:455-457). -/
  | credentialsNotFound
  /-- `create_cloudflared_config` returned False (main.py:483-487). -/
  | configFailed
deriving DecidableEq

/-- Result of the embedded `create_or_reuse_tunnel`. -/
structure PRes where
  ok : Bool
  fs : FS
  trace : List Ev
  /-- The credentials file path the emitted config references, if the run
  reached config emission and found one. -/
  creds : Option String
  err : Option PErr

/-- The common tail of `create_or_reuse_tunnel` (main.py:459-489): DNS
routing followed by config emission. -/
def finishProvision (env : Env) (dir tunnel_name full_domain : String)
    (local_port : Nat) (tunnel_id : Option String) (fs : FS) (tr0 : List Ev) : PRes :=
  let dtr := dns_route env tunnel_name full_domain tunnel_id
  let cfg := create_cloudflared_config env dir fs (ymlPathOf dir tunnel_name)
    tunnel_name full_domain local_port
  ⟨cfg.ok, cfg.fs, tr0 ++ dtr ++ cfg.trace, cfg.creds,
   if cfg.ok then none else some PErr.configFailed⟩

/-- Apply the file writes the provider binary performs during the create
command. -/
def applyWrites (ws : List (String × String)) (fs : FS) : FS :=
  ws.foldl (fun f pc => f.write pc.1 pc.2) fs

/-- The filesystem after the create command has run: the stale-tunnel
cleanup has removed local files and the provider binary has written its
files. -/
def fsAfterCreate (env : Env) (dir tunnel_name : String) (fs : FS) : FS :=
  applyWrites env.createWrites (remove_cloudflare_tunnel env dir tunnel_name fs).1

/-- The events accumulated by the start of the create branch: the
stale-tunnel cleanup followed by the create command itself. -/
def trAfterCreate (env : Env) (dir tunnel_name : String) (fs : FS) : List Ev :=
  (remove_cloudflare_tunnel env dir tunnel_name fs).2 ++ [Ev.runCreate tunnel_name]

/-- The output-parsing block of the create branch (main.py:407-447):
from the combined stderr-then-stdout text, recover the credentials file
path (first component) and the tunnel id (second component) — directly
from the credentials-written message, or via the created-with-id fallback
(in which case the expected path is `<dir>/<tunnelID>.json`); an empty
output skips parsing entirely. -/
def parseCreateOutput (env : Env) (dir : String) (fs2 : FS) :
    Option String × Option String :=
  if env.createStderr ++ env.createStdout = "" then (none, none)
  else
    match env.reCredsPath (env.createStderr ++ env.createStdout) with
    | some cp => (some cp, (fs2 cp).bind env.parseTunnelID)
    | none =>
      match env.reTunnelId (env.createStderr ++ env.createStdout) with
      | some tid => (some (credsPathOf dir tid), some tid)
      | none => (none, none)

/-- The create branch of `create_or_reuse_tunnel` (main.py:381-457): remove
any stale same-named tunnel, run the create command, fail on a non-zero
exit, recover the credentials file path from the combined stderr-then-stdout
output (directly, or via the tunnel-id fallback), fail if no credentials
file can be located, otherwise rename it to the stable name and continue
with DNS routing and config emission. -/
def create_tunnel_flow (env : Env) (dir tunnel_name full_domain : String)
    (local_port : Nat) (fs : FS) : PRes :=
  if env.createExit ≠ 0 then
    ⟨false, fsAfterCreate env dir tunnel_name fs, trAfterCreate env dir tunnel_name fs,
     none, some PErr.createFailed⟩
  else
    match parseCreateOutput env dir (fsAfterCreate env dir tunnel_name fs) with
    | (some tunnel_id_file, tid) =>
      if ((fsAfterCreate env dir tunnel_name fs) tunnel_id_file).isSome then
        finishProvision env dir tunnel_name full_domain local_port tid
          ((fsAfterCreate env dir tunnel_name fs).rename tunnel_id_file
            (credsPathOf dir tunnel_name))
          (trAfterCreate env dir tunnel_name fs
            ++ [Ev.renameCreds tunnel_id_file (credsPathOf dir tunnel_name)])
      else
        ⟨false, fsAfterCreate env dir tunnel_name fs,
         trAfterCreate env dir tunnel_name fs, none, some PErr.credentialsNotFound⟩
    | (none, _) =>
      ⟨false, fsAfterCreate env dir tunnel_name fs,
       trAfterCreate env dir tunnel_name fs, none, some PErr.credentialsNotFound⟩

/-- `create_or_reuse_tunnel` (main.py:355-493): if the stable credentials
file exists, reuse the tunnel (reading the tunnel id from it best-effort)
and go straight to DNS routing and config emission; otherwise take the
create branch. -/
def create_or_reuse_tunnel (env : Env) (dir tunnel_name full_domain : String)
    (local_port : Nat) (fs : FS) : PRes :=
  match find_tunnel_credentials_file dir fs tunnel_name with
  | some credentials_file =>
    let tunnel_id := (fs credentials_file).bind env.parseTunnelID
    finishProvision env dir tunnel_name full_domain local_port tunnel_id fs
      [Ev.readCreds credentials_file]
  | none => create_tunnel_flow env dir tunnel_name full_domain local_port fs

/-- A bind probe on loopback: succeeds exactly when the OS reports the port
bindable and this process does not already hold it. -/
def bindProbe (os : Nat → Bool) (held : List Nat) (p : Nat) : Bool :=
  os p && !(held.contains p)

/-- The scan loop of `get_available_port` (main.py:191-197), counting the
number of remaining candidate ports.  A successful probe binds the socket
and the `with` block releases it on exit, so the held-port state is
restored before returning. -/
def scanPorts (os : Nat → Bool) (held : List Nat) : Nat → Nat → Option Nat × List Nat
  | _, 0 => (none, held)
  | p, n + 1 =>
    if bindProbe os held p then (some p, ((p :: held).erase p))
    else scanPorts os held (p + 1) n

/-- `get_available_port` (main.py:177-199): linear scan over
`[start_port, end_port]` returning the first port that binds; the
`RuntimeError` raised when no port is available is modelled as `none`. -/
def get_available_port (os : Nat → Bool) (held : List Nat)
    (start_port end_port : Nat) : Option Nat × List Nat :=
  scanPorts os held start_port (end_port + 1 - start_port)

/-- Boolean test that the first list is an initial segment of the second. -/
def isPrefixB : List Char → List Char → Bool
  | [], _ => true
  | _ :: _, [] => false
  | a :: as, b :: bs => a == b && isPrefixB as bs

/-- Boolean substring test, modelling the Python `in` operator on strings:
scans every suffix and checks `isPrefixB` there. -/
def containsSub (pat : List Char) : List Char → Bool
  | [] => isPrefixB pat []
  | s@(_ :: rest) => isPrefixB pat s || containsSub pat rest

/-- The characters Python `str.strip()` removes. -/
def pyIsSpace (c : Char) : Bool :=
  c == ' ' || c == '\t' || c == '\n' || c == '\r' ||
  c == Char.ofNat 11 || c == Char.ofNat 12

/-- Python `str.strip()`: drop whitespace from both ends. -/
def pyStrip (l : List Char) : List Char :=
  ((l.dropWhile pyIsSpace).reverse.dropWhile pyIsSpace).reverse

/-- Python `str.split(c)` for a single-character separator: the segments
between occurrences of the separator (an empty string yields one empty
segment, matching CPython). -/
def pySplitOn (sep : Char) : List Char → List (List Char)
  | [] => [[]]
  | c :: rest =>
    if c = sep then [] :: pySplitOn sep rest
    else
      match pySplitOn sep rest with
      | [] => [[c]]
      | l :: ls => (c :: l) :: ls

/-- The literal BEGIN marker line content (main.py:107). -/
def BEGIN_MARK : List Char := "-----BEGIN ARGO TUNNEL TOKEN-----".data

/-- The literal END marker line content (main.py:110). -/
def END_MARK : List Char := "-----END ARGO TUNNEL TOKEN-----".data

/-- The token-extraction loop of `get_cloudflare_domain` (main.py:102-113):
walk the lines; a line containing the BEGIN marker switches collection on
without being collected; a line containing the END marker stops the loop;
lines seen while collection is on are collected stripped. -/
def extractTokenLines : List (List Char) → Bool → List (List Char)
  | [], _ => []
  | l :: rest, inTok =>
    if containsSub BEGIN_MARK l then extractTokenLines rest true
    else if containsSub END_MARK l then []
    else if inTok then pyStrip l :: extractTokenLines rest true
    else extractTokenLines rest false

/-- The decoded token fields the program reads (main.py:129-131).  Missing
keys are `none`; Python also treats an empty string as falsy in the
`all([zone_id, api_token])` check, so truthiness is modelled separately. -/
structure TokenData where
  zoneID : Option String
  apiToken : Option String
  accountID : Option String

/-- Python truthiness of an optional string: present and non-empty. -/
def truthyStr : Option String → Bool
  | none => false
  | some s => s ≠ ""

/-- The external world of `get_cloudflare_domain`: the base64+JSON decoding
of the token payload (an exception is `none`) and the zone-lookup HTTP
response. -/
structure IdEnv where
  /-- Models base64.b64decode followed by json.loads on the joined token
  payload; none covers any exception in that block (main.py:121-126). -/
  decodeToken : String → Option TokenData
  /-- HTTP status code of the zone-lookup response. -/
  zoneStatus : Nat
  /-- Whether response.json() succeeds (an exception there is caught by the
  outer handler and yields none). -/
  zoneJsonOk : Bool
  /-- The success flag of the response body. -/
  zoneSuccess : Bool
  /-- The result.name field of the response body, if present. -/
  zoneName : Option String

/-- The zone-lookup URL (main.py:142). -/
def zoneUrlOf (zone_id : String) : String :=
  "https://api.cloudflare.com/client/v4/zones/" ++ zone_id

/-- The token payload lines collected from a cert.pem content: strip the
whole text, split it on newlines, and run the extraction loop. -/
def tokenLinesOf (content : String) : List (List Char) :=
  extractTokenLines (pySplitOn '\n' (pyStrip content.data)) false

/-- `get_cloudflare_domain` (main.py:81-175): read cert.pem (absent file
means not authenticated, result none), extract the base64 token between the
marker lines (none found means malformed, result none, no network), decode
it (failure means result none, no network), require truthy zoneID and
apiToken (otherwise result none, no network), then issue the single
zone-lookup GET with a 10 second timeout and read the domain out of a
successful response. -/
def get_cloudflare_domain (ienv : IdEnv) (dir : String) (fs : FS) :
    Option String × List Ev :=
  match fs (certPathOf dir) with
  | none => (none, [])
  | some content =>
    if (tokenLinesOf content).isEmpty then (none, [])
    else
      match ienv.decodeToken
        (String.mk ((tokenLinesOf content).foldr (fun a b => a ++ b) [])) with
      | none => (none, [])
      | some td =>
        if truthyStr td.zoneID && truthyStr td.apiToken then
          let zid := td.zoneID.getD ""
          let ev := [Ev.httpGet (zoneUrlOf zid) 10]
          if ienv.zoneStatus ≠ 200 then (none, ev)
          else if !ienv.zoneJsonOk then (none, ev)
          else if !ienv.zoneSuccess then (none, ev)
          else
            match ienv.zoneName with
            | some d => (some d, ev)
            | none => (none, ev)
        else (none, [])

/-- Outcome of one HTTP request: a response with a status code, or an
exception carrying its message text. -/
inductive HttpOut where
  | status : Nat → HttpOut
  | exc : String → HttpOut
deriving DecidableEq

/-- The external world of `wait_for_url`: the outcome and wall-clock
duration of each numbered attempt against the public URL, and the outcome
of the diagnostic probe of the local server at each attempt. -/
structure WaitEnv where
  attempt : Nat → HttpOut
  dur : Nat → Nat
  localProbe : Nat → HttpOut

/-- Case-insensitive substring test on an exception message, modelling
`"..." in error_message.lower()`. -/
def lowerContains (pat : List Char) (msg : String) : Bool :=
  containsSub pat (msg.data.map Char.toLower)

/-- The DNS-problem heuristic of `wait_for_url` (main.py:522). -/
def isDnsMsg (msg : String) : Bool :=
  lowerContains "name resolution".data msg || lowerContains "dns".data msg

/-- Whether an outcome is a 200 response (used only for the diagnostic
print of the local probe). -/
def isOk200 : HttpOut → Bool
  | .status c => c == 200
  | .exc _ => false

/-- The polling loop of `wait_for_url` (main.py:509-531).  `now` is the
elapsed wall-clock time, `k` the attempt counter, and `fuel` a bound on
the number of iterations (the loop body advances wall-clock time by the
request duration, plus 5 for the sleep that only the exception branch
performs; with every request taking at least one second, fuel `endT`
suffices).  A response with status 200 returns true; any other response
retries immediately with no sleep; an exception triggers the diagnostic
local probe when its message looks DNS-related, then a 5 second sleep.
The diagnostic probe is modelled with zero duration. -/
def wait_aux (wenv : WaitEnv) (url : String) (port : Nat) (endT : Nat) :
    Nat → Nat → Nat → Bool × List Ev
  | _, _, 0 => (false, [])
  | now, k, fuel + 1 =>
    if now < endT then
      match wenv.attempt k with
      | .status c =>
        if c = 200 then (true, [Ev.httpGet url 5])
        else
          ((wait_aux wenv url port endT (now + wenv.dur k) (k + 1) fuel).1,
           Ev.httpGet url 5
             :: (wait_aux wenv url port endT (now + wenv.dur k) (k + 1) fuel).2)
      | .exc msg =>
        ((wait_aux wenv url port endT (now + wenv.dur k + 5) (k + 1) fuel).1,
         Ev.httpGet url 5
           :: (if isDnsMsg msg then [Ev.localGet port 2 (isOk200 (wenv.localProbe k))]
               else [])
           ++ Ev.sleep 5
           :: (wait_aux wenv url port endT (now + wenv.dur k + 5) (k + 1) fuel).2)
    else (false, [])

/-- `wait_for_url` (main.py:495-534): poll until a 200 response or until
the overall timeout elapses, starting the clock at zero and the attempt
counter at one. -/
def wait_for_url (wenv : WaitEnv) (url : String) (port : Nat)
    (timeout_seconds fuel : Nat) : Bool × List Ev :=
  wait_aux wenv url port timeout_seconds 0 1 fuel

/-- Whether an event is a DNS route-registration command. -/
def isRouteEv : Ev → Bool
  | .runRoute _ _ => true
  | _ => false

/-- Whether an event is an HTTP request against the public URL. -/
def isAttemptEv : Ev → Bool
  | .httpGet _ _ => true
  | _ => false

/-- Whether an HTTP outcome is an exception (as opposed to a response). -/
def isExcOut : HttpOut → Bool
  | .exc _ => true
  | .status _ => false

theorem strData_append (a b : String) : (a ++ b).data = a.data ++ b.data := rfl

theorem strEq_of_data {a b : String} (h : a.data = b.data) : a = b := by
  cases a; cases b; exact congrArg String.mk h

/-- The last character of a string, if any. -/
def strLast (s : String) : Option Char := s.data.reverse.head?

theorem head_append_of_ne_nil {α : Type} {l m : List α} (h : l ≠ []) :
    (l ++ m).head? = l.head? := by
  cases l with
  | nil => exact absurd rfl h
  | cons a t => rfl

theorem strLast_append (a b : String) (h : b.data ≠ []) :
    strLast (a ++ b) = strLast b := by
  unfold strLast
  rw [strData_append, List.reverse_append, head_append_of_ne_nil]
  simpa using h

theorem ne_of_strLast_ne {a b : String} (h : strLast a ≠ strLast b) : a ≠ b :=
  fun e => h (by rw [e])

theorem strLast_credsPath (dir n : String) : strLast (credsPathOf dir n) = some 'n' := by
  unfold credsPathOf
  rw [strLast_append _ ".json" (by decide)]
  decide

theorem strLast_ymlPath (dir n : String) : strLast (ymlPathOf dir n) = some 'l' := by
  unfold ymlPathOf
  rw [strLast_append _ ".yml" (by decide)]
  decide

theorem credsPath_ne_ymlPath (d n d' m : String) :
    credsPathOf d n ≠ ymlPathOf d' m := by
  apply ne_of_strLast_ne
  rw [strLast_credsPath, strLast_ymlPath]
  decide

theorem credsPathOf_inj {dir n n' : String}
    (h : credsPathOf dir n = credsPathOf dir n') : n = n' := by
  unfold credsPathOf at h
  have hd : ((dir.data ++ "/".data) ++ n.data) ++ ".json".data
      = ((dir.data ++ "/".data) ++ n'.data) ++ ".json".data := by
    have := congrArg String.data h
    simpa [strData_append] using this
  exact strEq_of_data (List.append_cancel_left (List.append_cancel_right hd))

theorem ymlPathOf_inj {dir n n' : String}
    (h : ymlPathOf dir n = ymlPathOf dir n') : n = n' := by
  unfold ymlPathOf at h
  have hd : ((dir.data ++ "/config-tunnel-".data) ++ n.data) ++ ".yml".data
      = ((dir.data ++ "/config-tunnel-".data) ++ n'.data) ++ ".yml".data := by
    have := congrArg String.data h
    simpa [strData_append] using this
  exact strEq_of_data (List.append_cancel_left (List.append_cancel_right hd))

@[simp] theorem FS.write_apply (fs : FS) (p c q : String) :
    (fs.write p c) q = if q = p then some c else fs q := rfl

@[simp] theorem FS.remove_apply (fs : FS) (p q : String) :
    (fs.remove p) q = if q = p then none else fs q := rfl

/-- A `runCreate` event never arises from the DNS-routing step. -/
theorem runCreate_not_mem_dns (env : Env) (name fd : String)
    (tid : Option String) (n : String) :
    Ev.runCreate n ∉ dns_route env name fd tid := by
  unfold dns_route
  split
  · simp
  · split
    · split <;> simp
    · simp

/-- A `runRoute` with the tunnel name is always the first event of the
DNS-routing step. -/
theorem runRoute_mem_dns (env : Env) (name fd : String) (tid : Option String) :
    Ev.runRoute name fd ∈ dns_route env name fd tid := by
  unfold dns_route
  split
  · simp
  · split
    · split <;> simp
    · simp

theorem finishProvision_ok (env : Env) (dir name fd : String) (port : Nat)
    (tid : Option String) (fs : FS) (tr0 : List Ev) :
    (finishProvision env dir name fd port tid fs tr0).ok
      = ((fs (credsPathOf dir name)).isSome && env.configWriteOk) := by
  unfold finishProvision create_cloudflared_config find_tunnel_credentials_file
  by_cases h : (fs (credsPathOf dir name)).isSome
  · rw [if_pos h]
    cases hc : env.configWriteOk <;> simp [hc, h]
  · rw [if_neg h]
    simp only [Bool.false_eq_true, false_and, Bool.not_eq_true] at h
    simp [h]

theorem finishProvision_creds (env : Env) (dir name fd : String) (port : Nat)
    (tid : Option String) (fs : FS) (tr0 : List Ev) :
    (finishProvision env dir name fd port tid fs tr0).creds
      = find_tunnel_credentials_file dir fs name := by
  unfold finishProvision create_cloudflared_config
  unfold find_tunnel_credentials_file
  by_cases h : (fs (credsPathOf dir name)).isSome
  · rw [if_pos h]
    cases hc : env.configWriteOk <;> simp [hc]
  · rw [if_neg h]

theorem finishProvision_fs (env : Env) (dir name fd : String) (port : Nat)
    (tid : Option String) (fs : FS) (tr0 : List Ev) :
    (finishProvision env dir name fd port tid fs tr0).fs
      = if ((fs (credsPathOf dir name)).isSome && env.configWriteOk) then
          fs.write (ymlPathOf dir name)
            (config_content name fd port (credsPathOf dir name))
        else fs := by
  unfold finishProvision create_cloudflared_config find_tunnel_credentials_file
  by_cases h : (fs (credsPathOf dir name)).isSome
  · rw [if_pos h]
    cases hc : env.configWriteOk <;> simp [hc, h]
  · rw [if_neg h]
    simp only [Bool.not_eq_true] at h
    simp [h]

theorem finishProvision_trace (env : Env) (dir name fd : String) (port : Nat)
    (tid : Option String) (fs : FS) (tr0 : List Ev) :
    (finishProvision env dir name fd port tid fs tr0).trace
      = tr0 ++ dns_route env name fd tid
          ++ (if (fs (credsPathOf dir name)).isSome then
                [Ev.writeConfig (ymlPathOf dir name)]
              else []) := by
  unfold finishProvision create_cloudflared_config find_tunnel_credentials_file
  by_cases h : (fs (credsPathOf dir name)).isSome
  · rw [if_pos h]
    cases hc : env.configWriteOk <;> simp [hc, h]
  · rw [if_neg h]
    simp only [Bool.not_eq_true] at h
    simp [h]

/-- When the stable credentials file exists, `create_or_reuse_tunnel` takes
the reuse branch. -/
theorem create_or_reuse_tunnel_reuse (env : Env) (dir name fd : String)
    (port : Nat) (fs : FS) (h : (fs (credsPathOf dir name)).isSome) :
    create_or_reuse_tunnel env dir name fd port fs
      = finishProvision env dir name fd port
          ((fs (credsPathOf dir name)).bind env.parseTunnelID) fs
          [Ev.readCreds (credsPathOf dir name)] := by
  unfold create_or_reuse_tunnel find_tunnel_credentials_file
  rw [if_pos h]

/-- When the stable credentials file is absent, `create_or_reuse_tunnel`
takes the create branch. -/
theorem create_or_reuse_tunnel_create (env : Env) (dir name fd : String)
    (port : Nat) (fs : FS) (h : fs (credsPathOf dir name) = none) :
    create_or_reuse_tunnel env dir name fd port fs
      = create_tunnel_flow env dir name fd port fs := by
  unfold create_or_reuse_tunnel find_tunnel_credentials_file
  rw [if_neg (by simp [h])]

/-- C10: for every tunnel name the credentials lookup returns the path
`<dir>/<tunnelName>.json` exactly when that file exists and nothing
otherwise, and any path it returns is that one stable path — it never
returns a credentials file stored under the provider-assigned UUID name. -/
theorem c10_find_credentials_lookup (dir name : String) (fs : FS) :
    (fs (credsPathOf dir name) ≠ none →
      find_tunnel_credentials_file dir fs name = some (credsPathOf dir name))
    ∧ (fs (credsPathOf dir name) = none →
      find_tunnel_credentials_file dir fs name = none)
    ∧ (∀ p, find_tunnel_credentials_file dir fs name = some p →
        p = credsPathOf dir name) := by
  refine ⟨?_, ?_, ?_⟩ <;> unfold find_tunnel_credentials_file
  · intro h
    rw [if_pos (Option.isSome_iff_ne_none.mpr h)]
  · intro h
    rw [if_neg (by simp [h])]
  · intro p hp
    by_cases h : (fs (credsPathOf dir name)).isSome
    · rw [if_pos h] at hp
      exact (Option.some_injective _ hp).symm
    · rw [if_neg h] at hp
      exact absurd hp (by simp)

theorem c10_find_credentials_lookup_witness :
    ((FS.write FS.empty "d/t.json" "c") (credsPathOf "d" "t") ≠ none)
    ∧ find_tunnel_credentials_file "d" (FS.write FS.empty "d/t.json" "c") "t"
        = some (credsPathOf "d" "t") :=
  ⟨by decide, (c10_find_credentials_lookup "d" "t"
      (FS.write FS.empty "d/t.json" "c")).1 (by decide)⟩

/-- C3: on the inputs tunnelName=blog, hostname=blog.example.com,
localPort=8123, credentialsPath=/home/u/.cloudflared/blog.json, the
generated config text contains the literal lines `tunnel: blog` and
`credentials-file: /home/u/.cloudflared/blog.json`, the ingress entry
mapping blog.example.com to http://localhost:8123, and the catch-all
http_status:404 rule, at line positions 0, 1, 4, 5 and 6 respectively (so
in that relative order); and for every filesystem, and in particular for
every pre-existing content of the target file, the config writer
unconditionally overwrites the target path with exactly this text. -/
theorem c3_config_writer_output :
    (let L := pySplitOn '\n'
      (config_content "blog" "blog.example.com" 8123
        "/home/u/.cloudflared/blog.json").data
     L[0]? = some "tunnel: blog".data
     ∧ L[1]? = some "credentials-file: /home/u/.cloudflared/blog.json".data
     ∧ L[4]? = some "  - hostname: blog.example.com".data
     ∧ L[5]? = some "    service: http://localhost:8123".data
     ∧ L[6]? = some "  - service: http_status:404".data)
    ∧ ∀ (env : Env) (fs : FS) (config_path : String),
        env.configWriteOk = true →
        fs (credsPathOf "/home/u/.cloudflared" "blog") ≠ none →
        (create_cloudflared_config env "/home/u/.cloudflared" fs config_path
          "blog" "blog.example.com" 8123).fs config_path
          = some (config_content "blog" "blog.example.com" 8123
              "/home/u/.cloudflared/blog.json") := by
  constructor
  · exact ⟨by decide, by decide, by decide, by decide, by decide⟩
  · intro env fs config_path hw hex
    unfold create_cloudflared_config find_tunnel_credentials_file
    rw [if_pos (Option.isSome_iff_ne_none.mpr hex), hw]
    show (FS.write fs config_path _) config_path = _
    rw [FS.write_apply, if_pos rfl]
    decide

theorem c3_config_writer_output_witness :
    ((Env.mk (fun _ _ => UnlinkOut.ok) 0 0 "" "" [] (fun _ => 0)
        (fun _ => none) (fun _ => none) (fun _ => none) true).configWriteOk = true)
    ∧ ((FS.write FS.empty "/home/u/.cloudflared/blog.json" "secret")
        (credsPathOf "/home/u/.cloudflared" "blog") ≠ none)
    ∧ (create_cloudflared_config
        (Env.mk (fun _ _ => UnlinkOut.ok) 0 0 "" "" [] (fun _ => 0)
          (fun _ => none) (fun _ => none) (fun _ => none) true)
        "/home/u/.cloudflared"
        (FS.write FS.empty "/home/u/.cloudflared/blog.json" "secret")
        "/home/u/.cloudflared/config-tunnel-blog.yml"
        "blog" "blog.example.com" 8123).fs
        "/home/u/.cloudflared/config-tunnel-blog.yml"
        = some (config_content "blog" "blog.example.com" 8123
            "/home/u/.cloudflared/blog.json") :=
  ⟨rfl, by decide,
   (c3_config_writer_output).2
     (Env.mk (fun _ _ => UnlinkOut.ok) 0 0 "" "" [] (fun _ => 0)
       (fun _ => none) (fun _ => none) (fun _ => none) true)
     (FS.write FS.empty "/home/u/.cloudflared/blog.json" "secret")
     "/home/u/.cloudflared/config-tunnel-blog.yml" rfl (by decide)⟩

theorem scanPorts_some (os : Nat → Bool) (held : List Nat) :
    ∀ (n p q : Nat) (st' : List Nat), scanPorts os held p n = (some q, st') →
      p ≤ q ∧ q < p + n ∧ bindProbe os held q = true
      ∧ (∀ r, p ≤ r → r < q → bindProbe os held r = false)
      ∧ st' = held := by
  intro n
  induction n with
  | zero => intro p q st' h; exact absurd (congrArg Prod.fst h) (by simp [scanPorts])
  | succ n ih =>
    intro p q st' h
    unfold scanPorts at h
    by_cases hb : bindProbe os held p
    · rw [if_pos hb] at h
      obtain ⟨h1, h2⟩ := Prod.mk.injEq .. ▸ h
      injection h1 with h1
      subst h1
      refine ⟨le_refl p, by omega, hb, fun r hr1 hr2 => absurd hr1 (by omega), ?_⟩
      rw [← h2, List.erase_cons_head]
    · rw [if_neg hb] at h
      obtain ⟨h1, h2, h3, h4, h5⟩ := ih (p + 1) q st' h
      refine ⟨by omega, by omega, h3, ?_, h5⟩
      intro r hr1 hr2
      rcases Nat.eq_or_lt_of_le hr1 with he | hl
      · subst he; simpa using hb
      · exact h4 r hl hr2

theorem scanPorts_none (os : Nat → Bool) (held : List Nat) :
    ∀ (n p : Nat) (st' : List Nat), scanPorts os held p n = (none, st') →
      st' = held ∧ ∀ r, p ≤ r → r < p + n → bindProbe os held r = false := by
  intro n
  induction n with
  | zero =>
    intro p st' h
    unfold scanPorts at h
    obtain ⟨-, h2⟩ := Prod.mk.injEq .. ▸ h
    exact ⟨h2.symm, fun r hr1 hr2 => absurd hr1 (by omega)⟩
  | succ n ih =>
    intro p st' h
    unfold scanPorts at h
    by_cases hb : bindProbe os held p
    · rw [if_pos hb] at h
      exact absurd (congrArg Prod.fst h) (by simp)
    · rw [if_neg hb] at h
      obtain ⟨h1, h2⟩ := ih (p + 1) st' h
      refine ⟨h1, fun r hr1 hr2 => ?_⟩
      rcases Nat.eq_or_lt_of_le hr1 with he | hl
      · subst he; simpa using hb
      · exact h2 r hl (by omega)

theorem scanPorts_none_of_all (os : Nat → Bool) (held : List Nat) :
    ∀ (n p : Nat), (∀ r, p ≤ r → r < p + n → bindProbe os held r = false) →
      scanPorts os held p n = (none, held) := by
  intro n
  induction n with
  | zero => intro p _; rfl
  | succ n ih =>
    intro p hall
    unfold scanPorts
    rw [if_neg (by simp [hall p (le_refl p) (by omega)])]
    exact ih (p + 1) (fun r hr1 hr2 => hall r (by omega) (by omega))

/-- C4: the port allocator is a linear scan over the inclusive range
returning the smallest bindable port; the probe socket is released before
returning (the held-port state is unchanged, so a subsequent bind to the
returned port succeeds); and it fails (the RuntimeError, modelled as
`none`) exactly when no port in the range can be bound. -/
theorem c4_get_available_port (os : Nat → Bool) (held : List Nat)
    (start_port end_port : Nat) :
    (∀ (q : Nat) (st' : List Nat),
       get_available_port os held start_port end_port = (some q, st') →
       start_port ≤ q ∧ q ≤ end_port ∧ bindProbe os held q = true
       ∧ (∀ r, start_port ≤ r → r < q → bindProbe os held r = false)
       ∧ st' = held ∧ bindProbe os st' q = true)
    ∧ (∀ (st' : List Nat),
       get_available_port os held start_port end_port = (none, st') →
       st' = held ∧ ∀ r, start_port ≤ r → r ≤ end_port → bindProbe os held r = false)
    ∧ ((∀ r, start_port ≤ r → r ≤ end_port → bindProbe os held r = false) →
       get_available_port os held start_port end_port = (none, held)) := by
  refine ⟨?_, ?_, ?_⟩
  · intro q st' h
    obtain ⟨h1, h2, h3, h4, h5⟩ := scanPorts_some os held _ _ _ _ h
    refine ⟨h1, by omega, h3, h4, h5, by rw [h5]; exact h3⟩
  · intro st' h
    obtain ⟨h1, h2⟩ := scanPorts_none os held _ _ _ h
    exact ⟨h1, fun r hr1 hr2 => h2 r hr1 (by omega)⟩
  · intro hall
    exact scanPorts_none_of_all os held _ _ (fun r hr1 hr2 => hall r hr1 (by omega))

theorem c4_get_available_port_witness :
    get_available_port (fun p => p == 8102) [] 8100 9000 = (some 8102, [])
    ∧ (8100 ≤ 8102 ∧ 8102 ≤ 9000 ∧ bindProbe (fun p => p == 8102) [] 8102 = true
       ∧ (∀ r, 8100 ≤ r → r < 8102 → bindProbe (fun p => p == 8102) [] r = false)
       ∧ ([] : List Nat) = [] ∧ bindProbe (fun p => p == 8102) [] 8102 = true) :=
  ⟨by decide,
   (c4_get_available_port (fun p => p == 8102) [] 8100 9000).1 8102 [] (by decide)⟩

theorem FS.rename_new {fs : FS} {old new : String} (h : (fs old).isSome) :
    (fs.rename old new) new = fs old := by
  unfold FS.rename
  cases hc : fs old with
  | none => rw [hc] at h; simp at h
  | some c => simp

/-- The create branch either fails outright or ends in the common
DNS-plus-config tail, applied to the filesystem in which the recovered
credentials file has been renamed to the stable name. -/
theorem create_flow_shape (env : Env) (dir name fd : String) (port : Nat) (fs : FS) :
    (create_tunnel_flow env dir name fd port fs).ok = false
    ∨ ∃ tif tid,
        ((fsAfterCreate env dir name fs) tif).isSome = true
        ∧ create_tunnel_flow env dir name fd port fs
          = finishProvision env dir name fd port tid
              ((fsAfterCreate env dir name fs).rename tif (credsPathOf dir name))
              (trAfterCreate env dir name fs
                ++ [Ev.renameCreds tif (credsPathOf dir name)]) := by
  unfold create_tunnel_flow
  by_cases hce : env.createExit ≠ 0
  · rw [if_pos hce]
    exact Or.inl rfl
  · rw [if_neg hce]
    rcases hp : parseCreateOutput env dir (fsAfterCreate env dir name fs) with ⟨pfst, psnd⟩
    cases pfst with
    | none => exact Or.inl rfl
    | some tif =>
      dsimp only
      by_cases hex : ((fsAfterCreate env dir name fs) tif).isSome
      · rw [if_pos hex]
        exact Or.inr ⟨tif, psnd, hex, rfl⟩
      · rw [if_neg hex]
        exact Or.inl rfl

/-- A successful provisioning run leaves the stable credentials file in
place, reports it as the credentials path used by the config, and can only
have succeeded with a working config write. -/
theorem provision_ok_invariant (env : Env) (dir name fd : String) (port : Nat)
    (fs : FS) (h : (create_or_reuse_tunnel env dir name fd port fs).ok = true) :
    ((create_or_reuse_tunnel env dir name fd port fs).fs (credsPathOf dir name)).isSome = true
    ∧ (create_or_reuse_tunnel env dir name fd port fs).creds = some (credsPathOf dir name)
    ∧ env.configWriteOk = true := by
  by_cases hex : (fs (credsPathOf dir name)).isSome
  · rw [create_or_reuse_tunnel_reuse env dir name fd port fs hex] at h ⊢
    rw [finishProvision_ok] at h
    obtain ⟨h1, h2⟩ := Bool.and_eq_true_iff.mp h
    refine ⟨?_, ?_, h2⟩
    · rw [finishProvision_fs, if_pos h, FS.write_apply,
        if_neg (credsPath_ne_ymlPath dir name dir name)]
      exact h1
    · rw [finishProvision_creds]
      unfold find_tunnel_credentials_file
      rw [if_pos h1]
  · have hnone : fs (credsPathOf dir name) = none := by
      cases hc : fs (credsPathOf dir name)
      · rfl
      · rw [hc] at hex; simp at hex
    rw [create_or_reuse_tunnel_create env dir name fd port fs hnone] at h ⊢
    rcases create_flow_shape env dir name fd port fs with hf | ⟨tif, tid, hsome, heq⟩
    · rw [hf] at h; exact absurd h (by simp)
    · rw [heq] at h ⊢
      rw [finishProvision_ok] at h
      obtain ⟨h1, h2⟩ := Bool.and_eq_true_iff.mp h
      refine ⟨?_, ?_, h2⟩
      · rw [finishProvision_fs, if_pos h, FS.write_apply,
          if_neg (credsPath_ne_ymlPath dir name dir name)]
        exact h1
      · rw [finishProvision_creds]
        unfold find_tunnel_credentials_file
        rw [if_pos h1]

/-- C1: after a successful provisioning run, a second run with identical
inputs takes the reuse branch: it never invokes the create-tunnel command
(so no second provider-side resource is created), it reuses the existing
credentials file and reports the same credentials path
`<dir>/<tunnelName>.json`, it succeeds again, and it modifies no file other
than the config file it regenerates. -/
theorem c1_provision_idempotent (env : Env) (dir name fd : String) (port : Nat)
    (fs : FS)
    (h : (create_or_reuse_tunnel env dir name fd port fs).ok = true) :
    (∀ n, Ev.runCreate n ∉
      (create_or_reuse_tunnel env dir name fd port
        (create_or_reuse_tunnel env dir name fd port fs).fs).trace)
    ∧ (create_or_reuse_tunnel env dir name fd port
        (create_or_reuse_tunnel env dir name fd port fs).fs).creds
        = (create_or_reuse_tunnel env dir name fd port fs).creds
    ∧ (create_or_reuse_tunnel env dir name fd port
        (create_or_reuse_tunnel env dir name fd port fs).fs).creds
        = some (credsPathOf dir name)
    ∧ (create_or_reuse_tunnel env dir name fd port
        (create_or_reuse_tunnel env dir name fd port fs).fs).ok = true
    ∧ (∀ p, p ≠ ymlPathOf dir name →
        (create_or_reuse_tunnel env dir name fd port
          (create_or_reuse_tunnel env dir name fd port fs).fs).fs p
          = (create_or_reuse_tunnel env dir name fd port fs).fs p) := by
  obtain ⟨hex, hcr, hcw⟩ := provision_ok_invariant env dir name fd port fs h
  rw [create_or_reuse_tunnel_reuse env dir name fd port
    ((create_or_reuse_tunnel env dir name fd port fs).fs) hex]
  refine ⟨?_, ?_, ?_, ?_, ?_⟩
  · intro n
    rw [finishProvision_trace]
    simp only [List.mem_append]
    rintro ((h1 | h2) | h3)
    · simp at h1
    · exact runCreate_not_mem_dns env name fd _ n h2
    · revert h3
      split <;> simp
  · rw [finishProvision_creds, hcr]
    unfold find_tunnel_credentials_file
    rw [if_pos hex]
  · rw [finishProvision_creds]
    unfold find_tunnel_credentials_file
    rw [if_pos hex]
  · rw [finishProvision_ok, hex, hcw]
    rfl
  · intro p hp
    rw [finishProvision_fs, if_pos (by rw [hex, hcw]; rfl),
      FS.write_apply, if_neg hp]

theorem c1_provision_idempotent_witness :
    ((create_or_reuse_tunnel
        (Env.mk (fun _ _ => UnlinkOut.ok) 0 0 "" "" [] (fun _ => 0)
          (fun _ => none) (fun _ => none) (fun _ => none) true)
        "d" "t" "t.example.com" 8080
        (FS.write FS.empty "d/t.json" "cred")).ok = true)
    ∧ (create_or_reuse_tunnel
        (Env.mk (fun _ _ => UnlinkOut.ok) 0 0 "" "" [] (fun _ => 0)
          (fun _ => none) (fun _ => none) (fun _ => none) true)
        "d" "t" "t.example.com" 8080
        (create_or_reuse_tunnel
          (Env.mk (fun _ _ => UnlinkOut.ok) 0 0 "" "" [] (fun _ => 0)
            (fun _ => none) (fun _ => none) (fun _ => none) true)
          "d" "t" "t.example.com" 8080
          (FS.write FS.empty "d/t.json" "cred")).fs).creds
        = some (credsPathOf "d" "t") :=
  ⟨by decide,
   (c1_provision_idempotent
     (Env.mk (fun _ _ => UnlinkOut.ok) 0 0 "" "" [] (fun _ => 0)
       (fun _ => none) (fun _ => none) (fun _ => none) true)
     "d" "t" "t.example.com" 8080
     (FS.write FS.empty "d/t.json" "cred") (by decide)).2.2.1⟩

/-- C6: when the stable credentials file exists but the tunnel id cannot be
read or parsed out of it, the run does not abort and does not invoke the
create-tunnel command: it proceeds to DNS routing with the tunnel id left
unknown (so no route command with anything but the tunnel name is ever
issued), and its final outcome is decided solely by the config write. -/
theorem c6_unreadable_credentials_reuse (env : Env) (dir name fd : String)
    (port : Nat) (fs : FS) (c : String)
    (h1 : fs (credsPathOf dir name) = some c)
    (h2 : env.parseTunnelID c = none) :
    (∀ n, Ev.runCreate n ∉
      (create_or_reuse_tunnel env dir name fd port fs).trace)
    ∧ Ev.runRoute name fd ∈ (create_or_reuse_tunnel env dir name fd port fs).trace
    ∧ (∀ s h, Ev.runRoute s h ∈ (create_or_reuse_tunnel env dir name fd port fs).trace
        → s = name ∧ h = fd)
    ∧ (create_or_reuse_tunnel env dir name fd port fs).ok = env.configWriteOk := by
  have hex : (fs (credsPathOf dir name)).isSome := by rw [h1]; rfl
  rw [create_or_reuse_tunnel_reuse env dir name fd port fs hex]
  have htid : (fs (credsPathOf dir name)).bind env.parseTunnelID = none := by
    rw [h1]
    exact h2
  rw [htid]
  refine ⟨?_, ?_, ?_, ?_⟩
  · intro n
    rw [finishProvision_trace]
    simp only [List.mem_append]
    rintro ((m1 | m2) | m3)
    · simp at m1
    · exact runCreate_not_mem_dns env name fd none n m2
    · revert m3
      split <;> simp
  · rw [finishProvision_trace]
    simp only [List.mem_append]
    exact Or.inl (Or.inr (runRoute_mem_dns env name fd none))
  · intro s hh
    rw [finishProvision_trace]
    simp only [List.mem_append]
    rintro ((m1 | m2) | m3)
    · simp at m1
    · revert m2
      unfold dns_route
      split <;> simp
    · revert m3
      split <;> simp
  · rw [finishProvision_ok, hex]
    rfl

theorem c6_unreadable_credentials_reuse_witness :
    ((FS.write FS.empty "d/t.json" "garbage") (credsPathOf "d" "t") = some "garbage")
    ∧ ((Env.mk (fun _ _ => UnlinkOut.ok) 0 0 "" "" [] (fun _ => 0)
        (fun _ => none) (fun _ => none) (fun _ => none) true).parseTunnelID "garbage" = none)
    ∧ (∀ s h, Ev.runRoute s h ∈
        (create_or_reuse_tunnel
          (Env.mk (fun _ _ => UnlinkOut.ok) 0 0 "" "" [] (fun _ => 0)
            (fun _ => none) (fun _ => none) (fun _ => none) true)
          "d" "t" "t.example.com" 8080
          (FS.write FS.empty "d/t.json" "garbage")).trace
        → s = "t" ∧ h = "t.example.com") :=
  ⟨by decide, rfl,
   (c6_unreadable_credentials_reuse
     (Env.mk (fun _ _ => UnlinkOut.ok) 0 0 "" "" [] (fun _ => 0)
       (fun _ => none) (fun _ => none) (fun _ => none) true)
     "d" "t" "t.example.com" 8080
     (FS.write FS.empty "d/t.json" "garbage") "garbage" (by decide) rfl).2.2.1⟩

/-- C7: on the create path (no stable credentials file), a non-zero exit of
the create command fails the run with the create-failed error; when no
credentials file can be located from the command output (neither via the
credentials-written message nor via the tunnel-id fallback) the run fails
with the credentials-not-found error; and whenever a credentials file is
found under its provider-assigned name — named directly by the
credentials-written message, or located at `<dir>/<tunnelID>.json` via the
created-with-id fallback — it is renamed to `<dir>/<tunnelName>.json`. -/
theorem c7_create_path_errors (env : Env) (dir name fd : String) (port : Nat)
    (fs : FS) (h : fs (credsPathOf dir name) = none) :
    (env.createExit ≠ 0 →
      (create_or_reuse_tunnel env dir name fd port fs).ok = false
      ∧ (create_or_reuse_tunnel env dir name fd port fs).err = some PErr.createFailed)
    ∧ (env.createExit = 0 →
       env.reCredsPath (env.createStderr ++ env.createStdout) = none →
       env.reTunnelId (env.createStderr ++ env.createStdout) = none →
      (create_or_reuse_tunnel env dir name fd port fs).ok = false
      ∧ (create_or_reuse_tunnel env dir name fd port fs).err
          = some PErr.credentialsNotFound)
    ∧ (∀ p, env.createExit = 0 →
       env.createStderr ++ env.createStdout ≠ "" →
       env.reCredsPath (env.createStderr ++ env.createStdout) = some p →
       ((fsAfterCreate env dir name fs) p).isSome = true →
       Ev.renameCreds p (credsPathOf dir name)
         ∈ (create_or_reuse_tunnel env dir name fd port fs).trace)
    ∧ (∀ tid, env.createExit = 0 →
       env.createStderr ++ env.createStdout ≠ "" →
       env.reCredsPath (env.createStderr ++ env.createStdout) = none →
       env.reTunnelId (env.createStderr ++ env.createStdout) = some tid →
       ((fsAfterCreate env dir name fs) (credsPathOf dir tid)).isSome = true →
       Ev.renameCreds (credsPathOf dir tid) (credsPathOf dir name)
         ∈ (create_or_reuse_tunnel env dir name fd port fs).trace) := by
  rw [create_or_reuse_tunnel_create env dir name fd port fs h]
  refine ⟨?_, ?_, ?_, ?_⟩
  · intro hce
    unfold create_tunnel_flow
    rw [if_pos hce]
    exact ⟨rfl, rfl⟩
  · intro hce hcp htid
    unfold create_tunnel_flow
    rw [if_neg (by simp [hce])]
    have hparse : parseCreateOutput env dir (fsAfterCreate env dir name fs) = (none, none) := by
      unfold parseCreateOutput
      by_cases hne : env.createStderr ++ env.createStdout = ""
      · rw [if_pos hne]
      · rw [if_neg hne, hcp, htid]
    rw [hparse]
    exact ⟨rfl, rfl⟩
  · intro p hce hne hcp hex
    unfold create_tunnel_flow
    rw [if_neg (by simp [hce])]
    have hparse : parseCreateOutput env dir (fsAfterCreate env dir name fs)
        = (some p, ((fsAfterCreate env dir name fs) p).bind env.parseTunnelID) := by
      unfold parseCreateOutput
      rw [if_neg hne, hcp]
    rw [hparse]
    dsimp only
    rw [if_pos hex]
    rw [finishProvision_trace]
    simp [trAfterCreate]
  · intro tid hce hne hcp htid hex
    unfold create_tunnel_flow
    rw [if_neg (by simp [hce])]
    have hparse : parseCreateOutput env dir (fsAfterCreate env dir name fs)
        = (some (credsPathOf dir tid), some tid) := by
      unfold parseCreateOutput
      rw [if_neg hne, hcp, htid]
    rw [hparse]
    dsimp only
    rw [if_pos hex]
    rw [finishProvision_trace]
    simp [trAfterCreate]

theorem c7_create_path_errors_witness :
    (FS.empty (credsPathOf "d" "t") = none)
    ∧ ((Env.mk (fun _ _ => UnlinkOut.ok) 0 1 "" "" [] (fun _ => 0)
        (fun _ => none) (fun _ => none) (fun _ => none) true).createExit ≠ 0
       → (create_or_reuse_tunnel
            (Env.mk (fun _ _ => UnlinkOut.ok) 0 1 "" "" [] (fun _ => 0)
              (fun _ => none) (fun _ => none) (fun _ => none) true)
            "d" "t" "t.example.com" 8080 FS.empty).ok = false
       ∧ (create_or_reuse_tunnel
            (Env.mk (fun _ _ => UnlinkOut.ok) 0 1 "" "" [] (fun _ => 0)
              (fun _ => none) (fun _ => none) (fun _ => none) true)
            "d" "t" "t.example.com" 8080 FS.empty).err = some PErr.createFailed) :=
  ⟨rfl,
   (c7_create_path_errors
     (Env.mk (fun _ _ => UnlinkOut.ok) 0 1 "" "" [] (fun _ => 0)
       (fun _ => none) (fun _ => none) (fun _ => none) true)
     "d" "t" "t.example.com" 8080 FS.empty rfl).1⟩

/-- C5 fails on the code: in a provisioning run that reaches DNS routing
with the tunnel id unknown (here: the credentials file exists but cannot be
parsed) and whose name-based route command fails, the run issues exactly
one route command — no retry — and never prints the manual-configuration
instructions, contradicting the claim that a failed name-based route is
always retried once with the tunnel id and followed by the instructions
when both attempts fail. -/
theorem c5_dns_retry_counterexample :
    ((create_or_reuse_tunnel
        (Env.mk (fun _ _ => UnlinkOut.ok) 0 0 "" "" [] (fun _ => 1)
          (fun _ => none) (fun _ => none) (fun _ => none) true)
        "d" "t" "t.example.com" 8080
        (FS.write FS.empty "d/t.json" "x")).trace.countP isRouteEv = 1)
    ∧ Ev.printManualDns ∉
        (create_or_reuse_tunnel
          (Env.mk (fun _ _ => UnlinkOut.ok) 0 0 "" "" [] (fun _ => 1)
            (fun _ => none) (fun _ => none) (fun _ => none) true)
          "d" "t" "t.example.com" 8080
          (FS.write FS.empty "d/t.json" "x")).trace
    ∧ (Env.mk (fun _ _ => UnlinkOut.ok) 0 0 "" "" [] (fun _ => 1)
        (fun _ => none) (fun _ => none) (fun _ => none) true).routeExit "t" ≠ 0 := by
  refine ⟨by decide, by decide, by decide⟩

/-- C5 (amended): when the name-based DNS route command fails, the step
retries exactly once with the tunnel id when one is known — printing the
manual-configuration instructions exactly when that retry also fails — and
performs no retry and prints no instructions when the tunnel id is unknown;
in every case the run continues to config emission, whose outcome alone
decides the result, so a DNS failure never aborts provisioning. -/
theorem c5_dns_retry_amended (env : Env) (name fd t : String)
    (h : env.routeExit name ≠ 0) :
    (dns_route env name fd (some t)
       = if env.routeExit t = 0 then [Ev.runRoute name fd, Ev.runRoute t fd]
         else [Ev.runRoute name fd, Ev.runRoute t fd, Ev.printManualDns])
    ∧ dns_route env name fd none = [Ev.runRoute name fd]
    ∧ (∀ (dir : String) (port : Nat) (fs : FS) (tid : Option String) (tr0 : List Ev),
        (finishProvision env dir name fd port tid fs tr0).ok
          = ((fs (credsPathOf dir name)).isSome && env.configWriteOk)
        ∧ (finishProvision env dir name fd port tid fs tr0).trace
          = tr0 ++ dns_route env name fd tid
            ++ (if (fs (credsPathOf dir name)).isSome then
                  [Ev.writeConfig (ymlPathOf dir name)] else [])) := by
  refine ⟨?_, ?_, ?_⟩
  · unfold dns_route
    rw [if_neg h]
  · unfold dns_route
    rw [if_neg h]
  · intro dir port fs tid tr0
    exact ⟨finishProvision_ok env dir name fd port tid fs tr0,
           finishProvision_trace env dir name fd port tid fs tr0⟩

theorem c5_dns_retry_amended_witness :
    ((Env.mk (fun _ _ => UnlinkOut.ok) 0 0 "" "" [] (fun _ => 1)
        (fun _ => none) (fun _ => none) (fun _ => none) true).routeExit "t" ≠ 0)
    ∧ dns_route
        (Env.mk (fun _ _ => UnlinkOut.ok) 0 0 "" "" [] (fun _ => 1)
          (fun _ => none) (fun _ => none) (fun _ => none) true)
        "t" "t.example.com" none = [Ev.runRoute "t" "t.example.com"] :=
  ⟨by decide,
   (c5_dns_retry_amended
     (Env.mk (fun _ _ => UnlinkOut.ok) 0 0 "" "" [] (fun _ => 1)
       (fun _ => none) (fun _ => none) (fun _ => none) true)
     "t" "t.example.com" "ignored" (by decide)).2.1⟩

theorem removeJsonFile_frame (env : Env) (dir name : String) (g : FS) (q : String)
    (hq : q ≠ credsPathOf dir name) :
    removeJsonFile env dir name g q = g q := by
  unfold removeJsonFile
  by_cases hex : (g (credsPathOf dir name)).isSome
  · rw [if_pos hex]
    cases env.unlink (credsPathOf dir name) 0 with
    | ok => simp [hq]
    | permError =>
      cases env.unlink (credsPathOf dir name) 1 with
      | ok => simp [hq]
      | permError => cases env.unlink (credsPathOf dir name) 2 <;> simp [hq]
      | otherError => cases env.unlink (credsPathOf dir name) 2 <;> simp [hq]
    | otherError => rfl
  · rw [if_neg hex]

theorem removeYmlFile_frame (env : Env) (dir name : String) (g : FS) (q : String)
    (hq : q ≠ ymlPathOf dir name) :
    removeYmlFile env dir name g q = g q := by
  unfold removeYmlFile
  by_cases hex : (g (ymlPathOf dir name)).isSome
  · rw [if_pos hex]
    cases env.unlink (ymlPathOf dir name) 0 <;> simp [hq]
  · rw [if_neg hex]

/-- C9: invoking the cleanup routine when neither the credentials file nor
the config file of the given tunnel name exists leaves the filesystem
exactly as it was (and the embedding is total: every exception branch of
the source is handled, so the routine completes without raising); and on
any filesystem whatsoever, the routine never touches the credentials or
config file of any other tunnel name. -/
theorem c9_cleanup_missing_files (env : Env) (dir name : String) (fs : FS)
    (h1 : fs (credsPathOf dir name) = none)
    (h2 : fs (ymlPathOf dir name) = none) :
    (remove_cloudflare_tunnel env dir name fs).1 = fs
    ∧ ∀ (g : FS) (n' : String), n' ≠ name →
        ((remove_cloudflare_tunnel env dir name g).1 (credsPathOf dir n')
           = g (credsPathOf dir n'))
        ∧ ((remove_cloudflare_tunnel env dir name g).1 (ymlPathOf dir n')
           = g (ymlPathOf dir n')) := by
  refine ⟨?_, ?_⟩
  · show remove_tunnel_files env dir name fs = fs
    unfold remove_tunnel_files
    have e1 : removeJsonFile env dir name fs = fs := by
      unfold removeJsonFile
      rw [h1]
      rfl
    rw [e1]
    unfold removeYmlFile
    rw [h2]
    rfl
  · intro g n' hne
    constructor
    · show remove_tunnel_files env dir name g (credsPathOf dir n') = _
      unfold remove_tunnel_files
      rw [removeYmlFile_frame env dir name _ _ (credsPath_ne_ymlPath dir n' dir name),
        removeJsonFile_frame env dir name g _ (fun e => hne (credsPathOf_inj e))]
    · show remove_tunnel_files env dir name g (ymlPathOf dir n') = _
      unfold remove_tunnel_files
      rw [removeYmlFile_frame env dir name _ _ (fun e => hne (ymlPathOf_inj e)),
        removeJsonFile_frame env dir name g _
          (Ne.symm (credsPath_ne_ymlPath dir name dir n'))]

theorem c9_cleanup_missing_files_witness :
    (FS.empty (credsPathOf "d" "t") = none)
    ∧ (FS.empty (ymlPathOf "d" "t") = none)
    ∧ ((remove_cloudflare_tunnel
          (Env.mk (fun _ _ => UnlinkOut.ok) 0 0 "" "" [] (fun _ => 0)
            (fun _ => none) (fun _ => none) (fun _ => none) true)
          "d" "t" (FS.write FS.empty "d/other.json" "z")).1 (credsPathOf "d" "other")
        = (FS.write FS.empty "d/other.json" "z") (credsPathOf "d" "other")) :=
  ⟨rfl, rfl,
   ((c9_cleanup_missing_files
      (Env.mk (fun _ _ => UnlinkOut.ok) 0 0 "" "" [] (fun _ => 0)
        (fun _ => none) (fun _ => none) (fun _ => none) true)
      "d" "t" FS.empty rfl rfl).2
     (FS.write FS.empty "d/other.json" "z") "other" (by decide)).1⟩

theorem containsSub_nil_pat : ∀ l : List Char, containsSub [] l = true
  | [] => rfl
  | _ :: rest => by
    unfold containsSub
    rw [Bool.or_eq_true]
    exact Or.inr (containsSub_nil_pat rest)

theorem isPrefixB_append : ∀ (l p t : List Char),
    isPrefixB p l = true → isPrefixB p (l ++ t) = true := by
  intro l
  induction l with
  | nil =>
    intro p t h
    cases p with
    | nil => rfl
    | cons a as => exact absurd h (by simp [isPrefixB])
  | cons c cs ih =>
    intro p t h
    cases p with
    | nil => rfl
    | cons a as =>
      unfold isPrefixB at h
      rw [Bool.and_eq_true] at h
      show (a == c && isPrefixB as (cs ++ t)) = true
      rw [Bool.and_eq_true]
      exact ⟨h.1, ih as t h.2⟩

theorem containsSub_extend_right : ∀ (l pat t : List Char),
    containsSub pat l = true → containsSub pat (l ++ t) = true := by
  intro l
  induction l with
  | nil =>
    intro pat t h
    cases pat with
    | nil => exact containsSub_nil_pat t
    | cons a as => exact absurd h (by simp [containsSub, isPrefixB])
  | cons c cs ih =>
    intro pat t h
    unfold containsSub at h
    rw [Bool.or_eq_true] at h
    show (isPrefixB pat (c :: (cs ++ t)) || containsSub pat (cs ++ t)) = true
    rw [Bool.or_eq_true]
    rcases h with h | h
    · exact Or.inl (isPrefixB_append (c :: cs) pat t h)
    · exact Or.inr (ih pat t h)

theorem containsSub_extend_left : ∀ (u pat m : List Char),
    containsSub pat m = true → containsSub pat (u ++ m) = true := by
  intro u
  induction u with
  | nil => intro pat m h; exact h
  | cons c cs ih =>
    intro pat m h
    show containsSub pat (c :: (cs ++ m)) = true
    unfold containsSub
    rw [Bool.or_eq_true]
    exact Or.inr (ih pat m h)

theorem pyStrip_sub (pat l : List Char)
    (h : containsSub pat (pyStrip l) = true) : containsSub pat l = true := by
  unfold pyStrip at h
  have h0 : (l.dropWhile pyIsSpace).reverse.takeWhile pyIsSpace
      ++ (l.dropWhile pyIsSpace).reverse.dropWhile pyIsSpace
      = (l.dropWhile pyIsSpace).reverse :=
    @List.takeWhile_append_dropWhile _ pyIsSpace _
  have ha : ((l.dropWhile pyIsSpace).reverse.dropWhile pyIsSpace).reverse
      ++ ((l.dropWhile pyIsSpace).reverse.takeWhile pyIsSpace).reverse
      = l.dropWhile pyIsSpace := by
    have h1 := congrArg List.reverse h0
    rw [List.reverse_append, List.reverse_reverse] at h1
    exact h1
  have hsub_a : containsSub pat (l.dropWhile pyIsSpace) = true := by
    rw [← ha]
    exact containsSub_extend_right _ _ _ h
  have hl : l.takeWhile pyIsSpace ++ l.dropWhile pyIsSpace = l :=
    @List.takeWhile_append_dropWhile _ pyIsSpace _
  rw [← hl]
  exact containsSub_extend_left _ _ _ hsub_a

theorem pySplitOn_sound (sep : Char) : ∀ s : List Char,
    ∃ l ls, pySplitOn sep s = l :: ls
      ∧ (∃ t, s = l ++ t)
      ∧ ∀ m ∈ ls, ∃ u v, s = u ++ (m ++ v) := by
  intro s
  induction s with
  | nil => exact ⟨[], [], rfl, ⟨[], rfl⟩, by simp⟩
  | cons c rest ih =>
    obtain ⟨l, ls, heq, ⟨t, ht⟩, hmem⟩ := ih
    by_cases hc : c = sep
    · refine ⟨[], l :: ls, by simp [pySplitOn, hc, heq], ⟨c :: rest, rfl⟩, ?_⟩
      intro m hm
      rcases List.mem_cons.mp hm with rfl | hm'
      · exact ⟨[c], t, by rw [ht]; rfl⟩
      · obtain ⟨u, v, huv⟩ := hmem m hm'
        exact ⟨c :: u, v, by rw [huv]; rfl⟩
    · refine ⟨c :: l, ls, by simp [pySplitOn, hc, heq], ⟨t, by rw [ht]; rfl⟩, ?_⟩
      intro m hm
      obtain ⟨u, v, huv⟩ := hmem m hm
      exact ⟨c :: u, v, by rw [huv]; rfl⟩

theorem containsSub_of_mem_split (sep : Char) (s line pat : List Char)
    (hm : line ∈ pySplitOn sep s) (hc : containsSub pat line = true) :
    containsSub pat s = true := by
  obtain ⟨l, ls, heq, ⟨t, ht⟩, hmem⟩ := pySplitOn_sound sep s
  rw [heq] at hm
  rcases List.mem_cons.mp hm with rfl | hm'
  · rw [ht]
    exact containsSub_extend_right _ _ _ hc
  · obtain ⟨u, v, huv⟩ := hmem line hm'
    rw [huv]
    exact containsSub_extend_left _ _ _ (containsSub_extend_right _ _ _ hc)

theorem extractTokenLines_nil (ls : List (List Char))
    (h : ∀ l ∈ ls, containsSub BEGIN_MARK l = false) :
    extractTokenLines ls false = [] := by
  induction ls with
  | nil => rfl
  | cons l rest ih =>
    unfold extractTokenLines
    rw [if_neg (by simp [h l (List.mem_cons_self l rest)])]
    by_cases he : containsSub END_MARK l = true
    · rw [if_pos he]
    · rw [if_neg he]
      exact ih (fun m hm => h m (List.mem_cons_of_mem l hm))

/-- C2: for every cert.pem content that contains neither the BEGIN nor the
END marker line, identity resolution returns no domain (the malformed
certificate outcome) and issues no HTTP request at all — in particular the
zone-lookup GET is never issued. -/
theorem c2_malformed_cert_no_network (ienv : IdEnv) (dir : String) (fs : FS)
    (content : String)
    (h1 : fs (certPathOf dir) = some content)
    (h2 : containsSub BEGIN_MARK content.data = false)
    (h3 : containsSub END_MARK content.data = false) :
    (get_cloudflare_domain ienv dir fs).1 = none
    ∧ ∀ u t, Ev.httpGet u t ∉ (get_cloudflare_domain ienv dir fs).2 := by
  have hempty : tokenLinesOf content = [] := by
    unfold tokenLinesOf
    apply extractTokenLines_nil
    intro l hl
    by_contra hb
    rw [Bool.not_eq_false] at hb
    have hstrip := containsSub_of_mem_split '\n' (pyStrip content.data) l BEGIN_MARK hl hb
    have hc := pyStrip_sub BEGIN_MARK content.data hstrip
    rw [h2] at hc
    exact Bool.false_ne_true hc
  have hres : get_cloudflare_domain ienv dir fs = (none, []) := by
    unfold get_cloudflare_domain
    simp [h1, hempty]
  refine ⟨by rw [hres], ?_⟩
  intro u t
  rw [hres]
  simp

theorem c2_malformed_cert_no_network_witness :
    ((FS.write FS.empty (certPathOf "d") "hello world") (certPathOf "d")
      = some "hello world")
    ∧ containsSub BEGIN_MARK "hello world".data = false
    ∧ containsSub END_MARK "hello world".data = false
    ∧ (get_cloudflare_domain (IdEnv.mk (fun _ => none) 200 true true none) "d"
        (FS.write FS.empty (certPathOf "d") "hello world")).1 = none :=
  ⟨by decide, by decide, by decide,
   (c2_malformed_cert_no_network (IdEnv.mk (fun _ => none) 200 true true none)
     "d" (FS.write FS.empty (certPathOf "d") "hello world") "hello world"
     (by decide) (by decide) (by decide)).1⟩

theorem wait_aux_true (e : WaitEnv) (url : String) (port endT : Nat) :
    ∀ (fuel now k : Nat), (wait_aux e url port endT now k fuel).1 = true →
      ∃ j, e.attempt j = HttpOut.status 200 := by
  intro fuel
  induction fuel with
  | zero => intro now k h; exact absurd h (by simp [wait_aux])
  | succ fuel ih =>
    intro now k h
    unfold wait_aux at h
    by_cases hlt : now < endT
    · rw [if_pos hlt] at h
      cases hak : e.attempt k with
      | status c =>
        rw [hak] at h
        dsimp only at h
        by_cases hc : c = 200
        · exact ⟨k, by rw [hak, hc]⟩
        · rw [if_neg hc] at h
          exact ih _ _ h
      | exc msg =>
        rw [hak] at h
        dsimp only at h
        exact ih _ _ h
    · rw [if_neg hlt] at h
      exact absurd h (by simp)

theorem wait_aux_get (e : WaitEnv) (url : String) (port endT : Nat) :
    ∀ (fuel now k : Nat) (u : String) (t : Nat),
      Ev.httpGet u t ∈ (wait_aux e url port endT now k fuel).2 →
      u = url ∧ t = 5 := by
  intro fuel
  induction fuel with
  | zero => intro now k u t h; exact absurd h (by simp [wait_aux])
  | succ fuel ih =>
    intro now k u t h
    unfold wait_aux at h
    by_cases hlt : now < endT
    · rw [if_pos hlt] at h
      cases hak : e.attempt k with
      | status c =>
        rw [hak] at h
        dsimp only at h
        by_cases hc : c = 200
        · rw [if_pos hc] at h
          simp at h
          exact ⟨h.1, h.2⟩
        · rw [if_neg hc] at h
          rcases List.mem_cons.mp h with he | hm
          · injection he with e1 e2
            exact ⟨e1, e2⟩
          · exact ih _ _ u t hm
      | exc msg =>
        rw [hak] at h
        dsimp only at h
        rcases List.mem_cons.mp h with he | hm
        · injection he with e1 e2
          exact ⟨e1, e2⟩
        · rcases List.mem_append.mp hm with hd | hs
          · revert hd
            split <;> simp
          · rcases List.mem_cons.mp hs with he2 | hm2
            · exact absurd he2 (by simp)
            · exact ih _ _ u t hm2
    · rw [if_neg hlt] at h
      exact absurd h (by simp)

theorem range_countP_succ (f : Nat → Bool) (m : Nat) :
    (List.range (m + 1)).countP f
    = (if f 0 then 1 else 0) + (List.range m).countP (fun i => f (i + 1)) := by
  rw [List.range_succ_eq_map, List.countP_cons, List.countP_map]
  rw [Nat.add_comm]
  rfl

theorem wait_aux_sleep_count (e : WaitEnv) (url : String) (port endT : Nat) :
    ∀ (fuel now k : Nat),
      (wait_aux e url port endT now k fuel).2.count (Ev.sleep 5)
      = (List.range ((wait_aux e url port endT now k fuel).2.countP isAttemptEv)).countP
          (fun i => isExcOut (e.attempt (i + k))) := by
  intro fuel
  induction fuel with
  | zero => intro now k; simp [wait_aux]
  | succ fuel ih =>
    intro now k
    unfold wait_aux
    by_cases hlt : now < endT
    · rw [if_pos hlt]
      cases hak : e.attempt k with
      | status c =>
        dsimp only
        by_cases hc : c = 200
        · rw [if_pos hc]
          simp [isAttemptEv, isExcOut, hak, List.range_succ]
        · rw [if_neg hc]
          have harg : (fun i => isExcOut (e.attempt (i + 1 + k)))
              = (fun i => isExcOut (e.attempt (i + (k + 1)))) := by
            funext i
            rw [Nat.add_assoc, Nat.add_comm 1 k]
          rw [List.count_cons, List.countP_cons]
          have hga : isAttemptEv (Ev.httpGet url 5) = true := rfl
          rw [hga]
          have hn : (wait_aux e url port endT (now + e.dur k) (k + 1) fuel).2.countP isAttemptEv
              + (if true = true then 1 else 0)
              = (wait_aux e url port endT (now + e.dur k) (k + 1) fuel).2.countP isAttemptEv + 1 := by
            simp
          rw [hn, range_countP_succ]
          have h0 : isExcOut (e.attempt (0 + k)) = false := by
            rw [Nat.zero_add, hak]
            rfl
          rw [h0, harg, ← ih (now + e.dur k) (k + 1)]
          simp
      | exc msg =>
        dsimp only
        have harg : (fun i => isExcOut (e.attempt (i + 1 + k)))
            = (fun i => isExcOut (e.attempt (i + (k + 1)))) := by
          funext i
          rw [Nat.add_assoc, Nat.add_comm 1 k]
        have hdiag1 : (if isDnsMsg msg then
            [Ev.localGet port 2 (isOk200 (e.localProbe k))] else []).count (Ev.sleep 5) = 0 := by
          split <;> simp
        have hdiag2 : (if isDnsMsg msg then
            [Ev.localGet port 2 (isOk200 (e.localProbe k))] else []).countP isAttemptEv = 0 := by
          split <;> simp [isAttemptEv]
        rw [List.count_append, List.countP_append, List.count_cons, List.countP_cons,
          List.count_cons, List.countP_cons, hdiag1, hdiag2]
        have h0 : isExcOut (e.attempt (0 + k)) = true := by
          rw [Nat.zero_add, hak]
          rfl
        have hn : ((0 : Nat) + (if isAttemptEv (Ev.httpGet url 5) = true then 1 else 0))
            + ((wait_aux e url port endT (now + e.dur k + 5) (k + 1) fuel).2.countP isAttemptEv
               + (if isAttemptEv (Ev.sleep 5) = true then 1 else 0))
            = (wait_aux e url port endT (now + e.dur k + 5) (k + 1) fuel).2.countP isAttemptEv + 1 := by
          simp [isAttemptEv, Nat.add_comm]
        rw [hn, range_countP_succ, h0, harg, ← ih (now + e.dur k + 5) (k + 1)]
        simp [Nat.add_comm]
    · rw [if_neg hlt]
      simp

theorem wait_aux_probe_indep (e1 e2 : WaitEnv) (ha : e1.attempt = e2.attempt)
    (hd : e1.dur = e2.dur) (url : String) (port endT : Nat) :
    ∀ (fuel now k : Nat),
      (wait_aux e1 url port endT now k fuel).1
      = (wait_aux e2 url port endT now k fuel).1 := by
  intro fuel
  induction fuel with
  | zero => intro now k; rfl
  | succ fuel ih =>
    intro now k
    unfold wait_aux
    by_cases hlt : now < endT
    · rw [if_pos hlt, if_pos hlt]
      have hak1 : e1.attempt k = e2.attempt k := by rw [ha]
      cases hak : e2.attempt k with
      | status c =>
        rw [hak] at hak1
        rw [hak1]
        dsimp only
        by_cases hc : c = 200
        · rw [if_pos hc, if_pos hc]
        · rw [if_neg hc, if_neg hc]
          dsimp only
          rw [hd]
          exact ih (now + e2.dur k) (k + 1)
      | exc msg =>
        rw [hak] at hak1
        rw [hak1]
        dsimp only
        rw [hd]
        exact ih (now + e2.dur k + 5) (k + 1)
    · rw [if_neg hlt, if_neg hlt]

/-- C8 fails on the code: with every attempt answering HTTP 404 (a
response, not an exception) and taking one second, a run with a three
second timeout performs three attempts and returns false with not a single
sleep event in its trace — the loop sleeps only after attempts that raise
an exception, so there is no sleeping of 5 seconds between these attempts,
contradicting the claim that the prober sleeps 5 seconds between attempts. -/
theorem c8_sleep_counterexample :
    wait_for_url
        (WaitEnv.mk (fun _ => HttpOut.status 404) (fun _ => 1)
          (fun _ => HttpOut.status 200)) "u" 80 3 10
      = (false, [Ev.httpGet "u" 5, Ev.httpGet "u" 5, Ev.httpGet "u" 5])
    ∧ Ev.sleep 5 ∉
        (wait_for_url
          (WaitEnv.mk (fun _ => HttpOut.status 404) (fun _ => 1)
            (fun _ => HttpOut.status 200)) "u" 80 3 10).2
    ∧ (wait_for_url
        (WaitEnv.mk (fun _ => HttpOut.status 404) (fun _ => 1)
          (fun _ => HttpOut.status 200)) "u" 80 3 10).2.countP isAttemptEv = 3 :=
  ⟨by decide, by decide, by decide⟩

/-- C8 (amended): the prober polls the URL with a per-attempt 5 second
HTTP timeout until an attempt returns HTTP 200 (result true) or the
overall timeout (or the iteration bound) is exhausted (result false),
sleeping 5 seconds after attempts that fail with an exception and retrying
immediately, without sleeping, after attempts that return a non-200
response; the embedding is total (the function never raises), and the
diagnostic probe of the local service on DNS-looking errors does not
change the result. -/
theorem c8_wait_for_url_amended (e : WaitEnv) (url : String)
    (port timeoutS fuel : Nat) :
    ((wait_for_url e url port timeoutS fuel).1 = true →
      ∃ j, e.attempt j = HttpOut.status 200)
    ∧ (∀ u t, Ev.httpGet u t ∈ (wait_for_url e url port timeoutS fuel).2 →
        u = url ∧ t = 5)
    ∧ ((wait_for_url e url port timeoutS fuel).2.count (Ev.sleep 5)
        = (List.range
            ((wait_for_url e url port timeoutS fuel).2.countP isAttemptEv)).countP
            (fun i => isExcOut (e.attempt (i + 1))))
    ∧ (∀ e2 : WaitEnv, e2.attempt = e.attempt → e2.dur = e.dur →
        (wait_for_url e2 url port timeoutS fuel).1
          = (wait_for_url e url port timeoutS fuel).1) := by
  refine ⟨?_, ?_, ?_, ?_⟩
  · exact wait_aux_true e url port timeoutS fuel 0 1
  · exact fun u t => wait_aux_get e url port timeoutS fuel 0 1 u t
  · exact wait_aux_sleep_count e url port timeoutS fuel 0 1
  · intro e2 ha hd
    exact wait_aux_probe_indep e2 e ha hd url port timeoutS fuel 0 1

theorem c8_wait_for_url_amended_witness :
    ((wait_for_url
        (WaitEnv.mk (fun _ => HttpOut.status 200) (fun _ => 1)
          (fun _ => HttpOut.status 200)) "u" 80 3 10).1 = true)
    ∧ (∃ j, (WaitEnv.mk (fun _ => HttpOut.status 200) (fun _ => 1)
        (fun _ => HttpOut.status 200) : WaitEnv).attempt j = HttpOut.status 200) :=
  ⟨by decide,
   (c8_wait_for_url_amended
     (WaitEnv.mk (fun _ => HttpOut.status 200) (fun _ => 1)
       (fun _ => HttpOut.status 200)) "u" 80 3 10).1 (by decide)⟩
